import Mathlib

/-!
Real-Time-Tracker: verification of the presence protocol.

Shallow embedding of the real-time presence core of the repository:

* the relay server (`src/unnamed/part_000`, lines 804-833): socket.io server
  whose `send-location` handler runs `io.emit('receive-location',
  {id:socket.id,...data})` and whose `disconnect` handler only logs;
* the `script.js` client (`src/public/js/script.js`): `receive-location`
  handler (lines 272-296), `watchPosition` success/error callbacks
  (lines 300-345), staleness reaper (lines 400-409);
* the second client (`src/unnamed/part_000`, lines 1-325): `receive-location`
  handler (lines 177-228) and staleness reaper (lines 308-325).

Conventions of the embedding:

* Channel identities (socket ids) are `String`.
* Geographic coordinates are carried opaquely (the handlers never perform
  arithmetic on them); they are embedded as `Rat`.
* Timestamps (`new Date()` values) are milliseconds as `Int`; JavaScript
  `Date` subtraction is `Int` subtraction.
* A JavaScript field that may be absent (`undefined` after destructuring)
  is an `Option`.  Using an `undefined` value as an object property key
  coerces it to the string `"undefined"` (`jsKey`).
* Leaflet's `L.marker([lat, lng])` and `marker.setLatLng([lat, lng])`
  throw `Invalid LatLng` when a coordinate is `undefined` (`isNaN` check in
  `L.LatLng`); a handler outcome therefore records a `threw` flag together
  with the registry as left behind at the throw point.
-/

/-- A socket.io connection identity (`socket.id`), a string. -/
abbrev Identity := String

/-- Coordinates are IEEE-754 doubles in the source; the core never computes
with them, so they are carried as rationals. -/
abbrev Coord := Rat

/-- Payload of a client → relay `send-location` message.  The well-behaved
clients send `{latitude, longitude}`; a client may also attach an `id`
field, which matters because of the spread order in the relay. -/
structure SendPayload where
  latitude? : Option Coord
  longitude? : Option Coord
  id? : Option Identity
deriving DecidableEq, Repr

/-- A relay → client `receive-location` message as the clients destructure
it: `const { id, latitude, longitude } = data`.  Each field may be absent. -/
structure RecvMsg where
  id? : Option Identity
  latitude? : Option Coord
  longitude? : Option Coord
deriving DecidableEq, Repr

/-- `src/unnamed/part_000` line 819: `{id:socket.id,...data}`.  The spread
of `data` comes *after* the `id` property, so when the payload itself
carries an `id` field that value overwrites `socket.id`. -/
def mkReceiveLocation (senderId : Identity) (data : SendPayload) : RecvMsg :=
  { id? := some (data.id?.getD senderId)
    latitude? := data.latitude?
    longitude? := data.longitude? }

/-- `src/unnamed/part_000` lines 818-820: the `send-location` handler calls
`io.emit`, which delivers the message to every connected socket (the
sender included; `socket.broadcast.emit` would exclude it, but the source
uses `io.emit`).  The result pairs each recipient with the message it
receives. -/
def relaySend (channels : List Identity) (senderId : Identity)
    (data : SendPayload) : List (Identity × RecvMsg) :=
  channels.map (fun c => (c, mkReceiveLocation senderId data))

/-- `src/unnamed/part_000` lines 822-824: the `disconnect` handler only
logs.  socket.io itself removes the departing socket from the set of
connected sockets; the application emits nothing.  The result is the new
connected set paired with the list of messages emitted by the handler. -/
def relayDisconnect (channels : List Identity) (c : Identity) :
    List Identity × List (Identity × RecvMsg) :=
  (channels.erase c, [])

/-- JavaScript property-key coercion: `activeUsers[id]` with `id ===
undefined` reads and writes the key `"undefined"`. -/
def jsKey : Option Identity → Identity
  | some i => i
  | none => "undefined"

/-! ## The `script.js` client (src/public/js/script.js) -/

/-- One entry of `activeUsers` in `script.js`: `{id, marker, lastUpdate}`.
The marker of this client always has a concrete position (entries are only
created together with a successfully constructed marker). -/
structure UserEntry where
  id : Identity
  pos : Coord × Coord
  lastUpdate : Int
deriving DecidableEq, Repr

/-- The `activeUsers` object, keyed by `id` (a JavaScript object holds at
most one property per key; the association list makes that an invariant to
prove rather than a baked-in assumption). -/
abbrev Registry := List UserEntry

/-- Outcome of running an event handler: whether it terminated with an
uncaught exception, and the registry state it left behind. -/
structure HandlerResult where
  threw : Bool
  registry : Registry
deriving DecidableEq, Repr

/-- `src/public/js/script.js` lines 272-296, the `receive-location`
handler:

* line 274: `if (id === mySocketId) return;` — the client's own echo is
  discarded before any registry access;
* lines 276-291: unseen key — the entry is created as an object literal
  whose `marker` field is `L.marker([latitude, longitude])`; when a
  coordinate is `undefined` the marker constructor throws *before* the
  assignment `activeUsers[id] = …`, so the registry is unchanged;
* lines 292-295: existing key — `marker.setLatLng([latitude, longitude])`
  runs first (throwing on an `undefined` coordinate, before any mutation)
  and only then `lastUpdate = new Date()`. -/
def receiveLocationScript (selfId : Identity) (now : Int) (msg : RecvMsg)
    (r : Registry) : HandlerResult :=
  if msg.id? = some selfId then ⟨false, r⟩
  else
    let key := jsKey msg.id?
    match r.find? (fun e => e.id = key) with
    | none =>
      match msg.latitude?, msg.longitude? with
      | some la, some lo => ⟨false, r ++ [⟨key, (la, lo), now⟩]⟩
      | _, _ => ⟨true, r⟩
    | some _ =>
      match msg.latitude?, msg.longitude? with
      | some la, some lo =>
        ⟨false, r.map (fun e =>
          if e.id = key then { e with pos := (la, lo), lastUpdate := now } else e)⟩
      | _, _ => ⟨true, r⟩

/-- `src/public/js/script.js` lines 400-409, the cleanup interval: an entry
is deleted when `now - lastUpdate > 30000 && id !== mySocketId`; the
iteration (`Object.keys(…).forEach`) tests every entry independently, so
the tick is a filter.  The threshold is hard-coded to 30000 ms in the
source; it is a parameter here so that the exemption of the local entry
can be stated for every threshold value (0 included). -/
def reaperTickScriptT (selfId : Identity) (threshold now : Int)
    (r : Registry) : Registry :=
  r.filter (fun e => ¬(threshold < now - e.lastUpdate ∧ e.id ≠ selfId))

/-- The reaper tick with the source's threshold of 30000 ms. -/
def reaperTickScript (selfId : Identity) (now : Int) (r : Registry) : Registry :=
  reaperTickScriptT selfId 30000 now r

/-- The client-side state touched by the `watchPosition` callbacks of
`script.js`: the registry, the local marker (its current position when it
exists) and the tracking-status indicator text. -/
structure ClientState where
  mySocketId : Identity
  myMarker : Option (Coord × Coord)
  activeUsers : Registry
  trackingText : String
deriving DecidableEq, Repr

/-- `src/public/js/script.js` lines 301-332, the `watchPosition` success
callback: emits `send-location {latitude, longitude}`; when `myMarker`
already exists it only calls `myMarker.setLatLng` (the registry entry for
`mySocketId` holds the *same* marker object, so its position moves with
it, while its `lastUpdate` field is not touched); on the first fix it
creates the marker and the registry entry `{id, marker, lastUpdate: new
Date()}`.  Returns the new state and the emitted payload. -/
def watchSuccessScript (now : Int) (la lo : Coord) (st : ClientState) :
    ClientState × SendPayload :=
  let out : SendPayload := ⟨some la, some lo, none⟩
  match st.myMarker with
  | some _ =>
    ({ st with
        myMarker := some (la, lo)
        activeUsers := st.activeUsers.map (fun e =>
          if e.id = st.mySocketId then { e with pos := (la, lo) } else e)
        trackingText := "Tracking Active" }, out)
  | none =>
    ({ st with
        myMarker := some (la, lo)
        activeUsers := st.activeUsers ++ [⟨st.mySocketId, (la, lo), now⟩]
        trackingText := "Tracking Active" }, out)

/-- `src/public/js/script.js` lines 333-339, the `watchPosition` error
callback (permission denied, timeout, position unavailable): sets the
tracking indicator to `'Tracking Error'` and shows a toast; it touches
neither `activeUsers` nor `myMarker`. -/
def watchErrorScript (st : ClientState) : ClientState :=
  { st with trackingText := "Tracking Error" }

/-- Folding a list of inbound `receive-location` messages (all processed at
time `now`) through the `script.js` handler. -/
def applyInbound (selfId : Identity) (now : Int) (r : Registry)
    (msgs : List RecvMsg) : Registry :=
  msgs.foldl (fun acc m => (receiveLocationScript selfId now m acc).registry) r

/-- One well-formed upsert event destined for a fixed identity: arrival
time and the carried coordinates. -/
abbrev UpsertEv := Int × Coord × Coord

/-- A single application of the `script.js` handler for a well-formed
message `{id: k, latitude, longitude}`. -/
def upsertStep (selfId k : Identity) (acc : Registry) (ev : UpsertEv) : Registry :=
  (receiveLocationScript selfId ev.1 ⟨some k, some ev.2.1, some ev.2.2⟩ acc).registry

/-- A sequence of well-formed upserts for identity `k` applied in arrival
order. -/
def applyUpserts (selfId k : Identity) (r : Registry) (evs : List UpsertEv) :
    Registry :=
  evs.foldl (upsertStep selfId k) r

/-! ## The second client (src/unnamed/part_000, lines 1-325) -/

/-- One entry of `activeUsers` in the `part_000` client; there the entry is
created with `marker: null` first, so the marker is optional. -/
structure UserEntryP where
  id : Identity
  marker : Option (Coord × Coord)
  lastUpdate : Int
deriving DecidableEq, Repr

/-- The `activeUsers` object of the `part_000` client. -/
abbrev RegistryP := List UserEntryP

/-- Outcome of the `part_000` handler. -/
structure HandlerResultP where
  threw : Bool
  registry : RegistryP
deriving DecidableEq, Repr

/-- `src/unnamed/part_000` lines 177-228, the `receive-location` handler of
the second client.  There is no early return on `id === mySocketId`: the
upsert is applied for every identity, the local one included.

* lines 183-192: unseen key — entry `{id, marker: null, lastUpdate: new
  Date()}` is created *before* any marker work; existing key — only
  `lastUpdate = new Date()`;
* lines 196-211: marker phase — `setLatLng` on an existing marker or
  `L.marker` for a fresh one; both throw on an `undefined` coordinate,
  after the registry was already mutated. -/
def receiveLocationPart0 (now : Int) (msg : RecvMsg) (r : RegistryP) :
    HandlerResultP :=
  let key := jsKey msg.id?
  let r1 : RegistryP :=
    match r.find? (fun e => e.id = key) with
    | none => r ++ [⟨key, none, now⟩]
    | some _ => r.map (fun e =>
        if e.id = key then { e with lastUpdate := now } else e)
  match msg.latitude?, msg.longitude? with
  | some la, some lo =>
    ⟨false, r1.map (fun e => if e.id = key then { e with marker := some (la, lo) } else e)⟩
  | _, _ => ⟨true, r1⟩

/-- `src/unnamed/part_000` lines 308-325, the cleanup interval of the
second client: an entry is deleted whenever `now - lastUpdate > 30000` —
there is **no** `mySocketId` exemption in this client. -/
def reaperTickPart0 (now : Int) (r : RegistryP) : RegistryP :=
  r.filter (fun e => ¬(30000 < now - e.lastUpdate))

/-! ## Theorems -/

/-- C1 (counterexample).  With two connected channels `"a"` and `"b"` and a
`send-location` from `"a"`, the sender `"a"` itself is among the
recipients of the fanout (the handler uses `io.emit`, which delivers to
every connected socket), contradicting the claim that channel *k*
receives none. -/
theorem relaySend_sender_receives_own_echo :
    "a" ∈ (relaySend ["a", "b"] "a" ⟨some 1, some 2, none⟩).map Prod.fst := by
  decide

/-- C1 (amended).  For every set of connected channels and a
`send-location` from channel `k` carrying `{latitude, longitude}` (no
`id` field), the relay delivers a `receive-location` with `identity == k`
to **all** connected channels — the sender included — rather than to the
other N−1 only. -/
theorem relaySend_fanout_all_channels (channels : List Identity)
    (k : Identity) (la lo : Coord) :
    relaySend channels k ⟨some la, some lo, none⟩
      = channels.map (fun c => (c, ⟨some k, some la, some lo⟩)) := rfl

/-- C4 (counterexample).  A payload that carries an extra `id` field
defeats the relay's identity stamping: because the source spreads the
client payload *after* the `id: socket.id` property, the sender-supplied
value wins.  Sender `"chan-A"` sending `{latitude: 1, longitude: 2, id:
"chan-B"}` is forwarded with identity `"chan-B" ≠ "chan-A"`. -/
theorem mkReceiveLocation_spoofed_identity :
    (mkReceiveLocation "chan-A" ⟨some 1, some 2, some "chan-B"⟩).id? = some "chan-B"
      ∧ "chan-B" ≠ "chan-A" := by
  exact ⟨rfl, by decide⟩

/-- C4 (amended).  The identity of the fanned-out `receive-location`
equals the sending channel's own identity exactly when the payload
carries no `id` field; a payload carrying an `id` field overrides it with
the sender-supplied value (spread order in `{id:socket.id,...data}`). -/
theorem mkReceiveLocation_identity_policy (senderId : Identity)
    (la? lo? : Option Coord) (spoof : Identity) :
    (mkReceiveLocation senderId ⟨la?, lo?, none⟩).id? = some senderId
      ∧ (mkReceiveLocation senderId ⟨la?, lo?, some spoof⟩).id? = some spoof :=
  ⟨rfl, rfl⟩

/-- C9.  On channel disconnect the relay's connected set loses exactly the
departing channel and the handler emits no departure notification; in
consequence, feeding the (empty) list of emitted messages to any client
registry leaves it unchanged, so remote registries are unaffected by the
disconnect itself. -/
theorem relayDisconnect_silent (channels : List Identity) (c selfId : Identity)
    (now : Int) (r : Registry) :
    (relayDisconnect channels c).1 = channels.erase c
      ∧ (relayDisconnect channels c).2 = []
      ∧ applyInbound selfId now r ((relayDisconnect channels c).2.map Prod.snd) = r :=
  ⟨rfl, rfl, rfl⟩

/-- C8.  The `watchPosition` error callback of `script.js` (permission
denied, timeout, position unavailable) signals the tracking-error state
and leaves the registry — in particular the local participant's entry —
and the local marker untouched, for every client state (so in particular
after the local entry exists). -/
theorem watchErrorScript_preserves_registry (st : ClientState) :
    (watchErrorScript st).trackingText = "Tracking Error"
      ∧ (watchErrorScript st).activeUsers = st.activeUsers
      ∧ (watchErrorScript st).myMarker = st.myMarker :=
  ⟨rfl, rfl, rfl⟩

/-- C3 (counterexample).  The reaper of the `part_000` client removes any
stale entry, with no exemption for the local one: with `mySocketId =
"me"` and the local entry's `lastUpdate` 30001 ms in the past, the tick
deletes it, contradicting the claim that the local participant is never
removed. -/
theorem reaperTickPart0_removes_local :
    reaperTickPart0 30001 [⟨"me", some (0, 0), 0⟩] = [] := by
  decide

/-- C7 (code bug).  Malformed inbound `receive-location` messages are not
rejected by the `script.js` handler: a message missing only the `id`
field is applied as an upsert under the coerced key `"undefined"`,
mutating the registry (first conjunct), and a message missing a
coordinate makes the handler terminate with an uncaught `Invalid LatLng`
exception from Leaflet (second conjunct) — the spec requires the upsert
to be rejected with the state unchanged and the handler to terminate
normally. -/
theorem receiveLocationScript_malformed_not_rejected :
    receiveLocationScript "me" 100 ⟨none, some 37, some (-122)⟩ []
        = ⟨false, [⟨"undefined", (37, -122), 100⟩]⟩
      ∧ (receiveLocationScript "me" 100 ⟨some "other", some 37, none⟩ []).threw
        = true := by
  exact ⟨by decide, rfl⟩

/-- C3 (amended).  In the `script.js` client the staleness reaper never
removes the entry whose identity equals the client's own channel
identity, whatever the age of its `lastUpdate` and whatever the
threshold — the threshold-0 instance included.  (The `part_000` client
has no such exemption; see the counterexample.) -/
theorem reaperTickScriptT_local_exempt (selfId : Identity) (threshold now : Int)
    (r : Registry) (e : UserEntry) (he : e ∈ r) (hid : e.id = selfId) :
    e ∈ reaperTickScriptT selfId threshold now r := by
  simp only [reaperTickScriptT, List.mem_filter, decide_eq_true_eq]
  exact ⟨he, by simp [hid]⟩

/-- Witness for `reaperTickScriptT_local_exempt`: the local entry `"me"`,
aged 1000000 ms against threshold 0, survives the tick. -/
theorem reaperTickScriptT_local_exempt_witness :
    (⟨"me", (0, 0), 0⟩ : UserEntry) ∈ ([⟨"me", (0, 0), 0⟩] : Registry)
      ∧ (⟨"me", (0, 0), 0⟩ : UserEntry).id = "me"
      ∧ (⟨"me", (0, 0), 0⟩ : UserEntry)
          ∈ reaperTickScriptT "me" 0 1000000 [⟨"me", (0, 0), 0⟩] :=
  ⟨by decide, by decide,
    reaperTickScriptT_local_exempt "me" 0 1000000 _ _ (by decide) (by decide)⟩

/-- C6.  Postcondition of a `script.js` reaper tick at time `now` with the
source's threshold (30000 ms, equal to the tick interval): every
non-local entry that remains satisfies `now - lastUpdate ≤ 30000`, and
every entry that is evicted satisfied `now - lastUpdate > 30000` strictly
before its removal. -/
theorem reaperTickScript_postcondition (selfId : Identity) (now : Int)
    (r : Registry) :
    (∀ e ∈ reaperTickScript selfId now r, e.id ≠ selfId →
        now - e.lastUpdate ≤ 30000)
      ∧ (∀ e ∈ r, e ∉ reaperTickScript selfId now r →
        30000 < now - e.lastUpdate) := by
  constructor
  · intro e he hne
    simp only [reaperTickScript, reaperTickScriptT, List.mem_filter,
      decide_eq_true_eq] at he
    by_contra hgt
    push_neg at hgt
    exact he.2 ⟨hgt, hne⟩
  · intro e he hnot
    simp only [reaperTickScript, reaperTickScriptT, List.mem_filter,
      decide_eq_true_eq, not_and, not_not] at hnot
    have h2 := hnot he
    push_neg at h2
    exact h2.1

/-- Witness for `reaperTickScript_postcondition`: with `mySocketId = "me"`
at `now = 60000`, the remote entry updated at 50000 remains (10000 ≤
30000) and the remote entry updated at 0 is evicted (60000 > 30000). -/
theorem reaperTickScript_postcondition_witness :
    ((⟨"b", (0, 0), 50000⟩ : UserEntry) ∈ reaperTickScript "me" 60000
          [⟨"a", (0, 0), 0⟩, ⟨"b", (0, 0), 50000⟩]
        ∧ (⟨"b", (0, 0), 50000⟩ : UserEntry).id ≠ "me"
        ∧ (60000 : Int) - (⟨"b", (0, 0), 50000⟩ : UserEntry).lastUpdate ≤ 30000)
      ∧ ((⟨"a", (0, 0), 0⟩ : UserEntry)
            ∈ ([⟨"a", (0, 0), 0⟩, ⟨"b", (0, 0), 50000⟩] : Registry)
        ∧ (⟨"a", (0, 0), 0⟩ : UserEntry) ∉ reaperTickScript "me" 60000
            [⟨"a", (0, 0), 0⟩, ⟨"b", (0, 0), 50000⟩]
        ∧ (30000 : Int) < 60000 - (⟨"a", (0, 0), 0⟩ : UserEntry).lastUpdate) := by
  refine ⟨⟨?_, ?_, ?_⟩, ?_, ?_, ?_⟩
  · decide
  · decide
  · exact (reaperTickScript_postcondition "me" 60000
      [⟨"a", (0, 0), 0⟩, ⟨"b", (0, 0), 50000⟩]).1 _ (by decide) (by decide)
  · decide
  · decide
  · exact (reaperTickScript_postcondition "me" 60000
      [⟨"a", (0, 0), 0⟩, ⟨"b", (0, 0), 50000⟩]).2 _ (by decide) (by decide)

/-- C10.  In the `script.js` client, once `myMarker` exists (i.e. after
the first successful fix created the local registry entry), a further
successful fix moves the local marker to the fresh coordinates and emits
the `send-location` payload, but leaves the `lastUpdate` (and `id`) field
of every registry entry — the local one in particular — unchanged: the
local entry's `lastUpdate` keeps its creation-time value. -/
theorem watchSuccessScript_never_updates_lastUpdate (now : Int)
    (la lo : Coord) (st : ClientState) (m : Coord × Coord)
    (hm : st.myMarker = some m) :
    ((watchSuccessScript now la lo st).1.activeUsers).map
        (fun e => (e.id, e.lastUpdate))
        = st.activeUsers.map (fun e => (e.id, e.lastUpdate))
      ∧ (watchSuccessScript now la lo st).1.myMarker = some (la, lo)
      ∧ (watchSuccessScript now la lo st).2 = ⟨some la, some lo, none⟩ := by
  unfold watchSuccessScript
  rw [hm]
  refine ⟨?_, rfl, rfl⟩
  rw [List.map_map]
  apply List.map_congr_left
  intro e _
  by_cases h : e.id = st.mySocketId <;> simp [h]

/-- Witness for `watchSuccessScript_never_updates_lastUpdate`: the local
entry created at time 5 still carries `lastUpdate = 5` after a fresh fix
at time 99 moved the marker to `(3, 4)`. -/
theorem watchSuccessScript_never_updates_lastUpdate_witness :
    (⟨"me", some (1, 2), [⟨"me", (1, 2), 5⟩], "Tracking Active"⟩
        : ClientState).myMarker = some (1, 2)
      ∧ (((watchSuccessScript 99 3 4
            ⟨"me", some (1, 2), [⟨"me", (1, 2), 5⟩], "Tracking Active"⟩).1.activeUsers).map
            (fun e => (e.id, e.lastUpdate))
          = ([⟨"me", (1, 2), 5⟩] : Registry).map (fun e => (e.id, e.lastUpdate))
        ∧ (watchSuccessScript 99 3 4
            ⟨"me", some (1, 2), [⟨"me", (1, 2), 5⟩], "Tracking Active"⟩).1.myMarker
          = some (3, 4)
        ∧ (watchSuccessScript 99 3 4
            ⟨"me", some (1, 2), [⟨"me", (1, 2), 5⟩], "Tracking Active"⟩).2
          = ⟨some 3, some 4, none⟩) :=
  ⟨rfl, watchSuccessScript_never_updates_lastUpdate 99 3 4 _ (1, 2) rfl⟩

/-- C5 (counterexample).  The `script.js` `receive-location` handler
branches away an upsert whose identity equals the local channel's own
identity (`if (id === mySocketId) return;`): with an existing local entry
`⟨"me", (0,0), 5⟩` and an inbound self-echo carrying `(3,4)` at time 100,
the registry is left completely unchanged — neither position nor
`lastUpdate` is updated, contradicting the claim that the upsert is still
applied. -/
theorem receiveLocationScript_self_upsert_ignored :
    (receiveLocationScript "me" 100 ⟨some "me", some 3, some 4⟩
        [⟨"me", (0, 0), 5⟩]).registry = [⟨"me", (0, 0), 5⟩]
      ∧ ((0 : Coord), (0 : Coord)) ≠ ((3 : Coord), (4 : Coord))
      ∧ (5 : Int) ≠ 100 :=
  ⟨rfl, by decide, by decide⟩

/-- C5 (amended).  The two clients differ: in the `part_000` client an
upsert whose identity equals the local channel's own identity is still
applied — after the handler runs, the entry for `selfId` carries the
fresh coordinates and the fresh `lastUpdate`, and no exception is thrown
— while the `script.js` handler returns early on `id === mySocketId`,
leaving its registry unchanged for every possible registry state. -/
theorem receiveLocationPart0_self_upsert_applied (r : RegistryP) (now : Int)
    (selfId : Identity) (la lo : Coord) :
    (receiveLocationPart0 now ⟨some selfId, some la, some lo⟩ r).threw = false
      ∧ (receiveLocationPart0 now ⟨some selfId, some la, some lo⟩ r).registry.find?
          (fun e => e.id = selfId) = some ⟨selfId, some (la, lo), now⟩
      ∧ ∀ r' : Registry,
          (receiveLocationScript selfId now ⟨some selfId, some la, some lo⟩ r').registry
            = r' := by
  refine ⟨rfl, ?_, fun r' => by simp [receiveLocationScript]⟩
  unfold receiveLocationPart0
  simp only [jsKey]
  have hg : ((fun e : UserEntryP => decide (e.id = selfId)) ∘
      (fun e : UserEntryP =>
        if e.id = selfId then { e with marker := some (la, lo) } else e))
      = fun e : UserEntryP => decide (e.id = selfId) := by
    funext e
    by_cases h : e.id = selfId <;> simp [h]
  have hf : ((fun e : UserEntryP => decide (e.id = selfId)) ∘
      (fun e : UserEntryP => if e.id = selfId then { e with lastUpdate := now } else e))
      = fun e : UserEntryP => decide (e.id = selfId) := by
    funext e
    by_cases h : e.id = selfId <;> simp [h]
  cases h : r.find? (fun e => e.id = selfId) with
  | none =>
    simp only [List.map_append, List.find?_append, List.find?_map, hg, h,
      Option.map_none', Option.none_or, List.map_cons, List.map_nil]
    simp [List.find?]
  | some e =>
    have hpe : e.id = selfId := by
      have := List.find?_some h
      simpa using this
    simp only [List.find?_map, hg, hf, h, Option.map_some']
    simp [hpe]

/-- One application of the `script.js` handler for a well-formed message
`{id: k, latitude, longitude}` with `k ≠ mySocketId`: when the registry
holds at most one entry for `k` (the JavaScript-object representation
invariant), afterwards it holds exactly one, and that entry carries the
message's coordinates and arrival time. -/
theorem upsertStep_characterization (selfId k : Identity) (hk : k ≠ selfId)
    (acc : Registry) (hc : acc.countP (fun e => e.id = k) ≤ 1)
    (t : Int) (la lo : Coord) :
    (upsertStep selfId k acc (t, la, lo)).countP (fun e => e.id = k) = 1
      ∧ (upsertStep selfId k acc (t, la, lo)).find? (fun e => e.id = k)
        = some ⟨k, (la, lo), t⟩ := by
  unfold upsertStep receiveLocationScript
  rw [if_neg (by simpa using hk)]
  simp only [jsKey]
  have hupd : ((fun e : UserEntry => decide (e.id = k)) ∘
      (fun e : UserEntry =>
        if e.id = k then { e with pos := (la, lo), lastUpdate := t } else e))
      = fun e : UserEntry => decide (e.id = k) := by
    funext e
    by_cases h : e.id = k <;> simp [h]
  cases h : acc.find? (fun e => e.id = k) with
  | none =>
    have h0 : acc.countP (fun e => e.id = k) = 0 := by
      rw [List.countP_eq_zero]
      intro a ha
      simpa using List.find?_eq_none.mp h a ha
    constructor
    · simp [List.countP_append, h0]
    · rw [List.find?_append, h]
      simp [List.find?]
  | some e =>
    have hpe : e.id = k := by simpa using List.find?_some h
    have hmem : e ∈ acc := List.mem_of_find?_eq_some h
    have hpos : 0 < acc.countP (fun e => e.id = k) :=
      List.countP_pos_iff.mpr ⟨e, hmem, by simpa using hpe⟩
    constructor
    · rw [List.countP_map, hupd]
      omega
    · rw [List.find?_map, hupd, h]
      simp [hpe]

/-- A sequence of well-formed upserts keeps the at-most-one-entry-per-key
invariant of the registry. -/
theorem applyUpserts_countP_le (selfId k : Identity) (hk : k ≠ selfId)
    (evs : List UpsertEv) :
    ∀ r : Registry, r.countP (fun e => e.id = k) ≤ 1 →
      (applyUpserts selfId k r evs).countP (fun e => e.id = k) ≤ 1 := by
  induction evs with
  | nil => intro r hr; simpa [applyUpserts] using hr
  | cons ev evs ih =>
    intro r hr
    obtain ⟨t, la, lo⟩ := ev
    have hstep := upsertStep_characterization selfId k hk r hr t la lo
    have : applyUpserts selfId k r ((t, la, lo) :: evs)
        = applyUpserts selfId k (upsertStep selfId k r (t, la, lo)) evs := rfl
    rw [this]
    exact ih _ (by rw [hstep.1])

/-- C2.  Last-write-wins with in-place mutation: for every sequence of
well-formed upserts for the same identity `k` (`k ≠ mySocketId`, so the
`script.js` handler applies them) run against a registry that respects
the one-entry-per-key representation invariant, the registry afterwards
contains exactly one entry for `k`, and its position and `lastUpdate` are
those of the most recently applied upsert — by arrival order, with no
comparison of timestamp values anywhere in the handler. -/
theorem registry_upsert_lww (selfId k : Identity) (r : Registry)
    (pre : List UpsertEv) (t : Int) (la lo : Coord)
    (hk : k ≠ selfId) (hc : r.countP (fun e => e.id = k) ≤ 1) :
    (applyUpserts selfId k r (pre ++ [(t, la, lo)])).countP (fun e => e.id = k) = 1
      ∧ (applyUpserts selfId k r (pre ++ [(t, la, lo)])).find? (fun e => e.id = k)
        = some ⟨k, (la, lo), t⟩ := by
  have hpre := applyUpserts_countP_le selfId k hk pre r hc
  have hsplit : applyUpserts selfId k r (pre ++ [(t, la, lo)])
      = upsertStep selfId k (applyUpserts selfId k r pre) (t, la, lo) := by
    simp [applyUpserts, List.foldl_append]
  rw [hsplit]
  exact upsertStep_characterization selfId k hk _ hpre t la lo

/-- Witness for `registry_upsert_lww`: two upserts for `"a"` (first
`(5,6)` at time 1, then `(7,8)` at time 2) against an empty registry of a
client whose own identity is `"me"` leave exactly one `"a"` entry holding
`(7,8)` at time 2. -/
theorem registry_upsert_lww_witness :
    ("a" : Identity) ≠ "me"
      ∧ ([] : Registry).countP (fun e => e.id = "a") ≤ 1
      ∧ (applyUpserts "me" "a" [] ([(1, 5, 6)] ++ [(2, 7, 8)])).countP
          (fun e => e.id = "a") = 1
      ∧ (applyUpserts "me" "a" [] ([(1, 5, 6)] ++ [(2, 7, 8)])).find?
          (fun e => e.id = "a") = some ⟨"a", (7, 8), 2⟩ :=
  ⟨by decide, by decide,
    (registry_upsert_lww "me" "a" [] [(1, 5, 6)] 2 7 8 (by decide) (by decide)).1,
    (registry_upsert_lww "me" "a" [] [(1, 5, 6)] 2 7 8 (by decide) (by decide)).2⟩
